import Mathlib

set_option maxRecDepth 40000

/-!
Verification development for the csv-rs attestation crate.

The development shallowly embeds the guest attestation types
(`src/api/guest/types.rs`), the DCU device-exchange driver
(`src/api/dcu/mod.rs`) and the topology reader into Lean.  Machine
integers are modelled as `Nat` with explicit masking (`&&& 0xFFFFFFFF`,
`% 2^32`) where 32-bit overflow matters; byte arrays are `List Nat`
whose elements are bytes.  The cryptographic provider (OpenSSL SM3 and
HMAC-SM3) is implemented executably below so that hash-dependent
properties can be evaluated on concrete inputs.
-/

namespace CsvRs

/-- Truncate to 32 bits. -/
def mask32 (x : Nat) : Nat := x &&& 0xFFFFFFFF

/-- Rotate a 32-bit word left by `k` (mod 32) bits. -/
def rotl32 (x k : Nat) : Nat :=
  let k := k % 32
  ((x <<< k) ||| (x >>> (32 - k))) &&& 0xFFFFFFFF

/-- Little-endian 4-byte representation of a 32-bit value, as in the
Rust `u32::to_le_bytes`. -/
def toLeBytes4 (a : Nat) : List Nat :=
  let b := a % 4294967296
  [b &&& 0xFF, (b >>> 8) &&& 0xFF, (b >>> 16) &&& 0xFF, (b >>> 24) &&& 0xFF]

/-- Big-endian 4-byte representation of a 32-bit word. -/
def wordBeBytes (w : Nat) : List Nat :=
  [(w >>> 24) &&& 0xFF, (w >>> 16) &&& 0xFF, (w >>> 8) &&& 0xFF, w &&& 0xFF]

/-- Big-endian 8-byte representation of a 64-bit value. -/
def beBytes8 (n : Nat) : List Nat :=
  [(n >>> 56) &&& 0xFF, (n >>> 48) &&& 0xFF, (n >>> 40) &&& 0xFF,
   (n >>> 32) &&& 0xFF, (n >>> 24) &&& 0xFF, (n >>> 16) &&& 0xFF,
   (n >>> 8) &&& 0xFF, n &&& 0xFF]

/-! ### SM3 (GB/T 32905-2016), the platform digest of the firmware ABI -/

/-- SM3 round constant. -/
def sm3T (j : Nat) : Nat := if j < 16 then 0x79cc4519 else 0x7a879d8a

/-- SM3 boolean function FF. -/
def sm3FF (j x y z : Nat) : Nat :=
  if j < 16 then x ^^^ y ^^^ z else (x &&& y) ||| (x &&& z) ||| (y &&& z)

/-- SM3 boolean function GG. -/
def sm3GG (j x y z : Nat) : Nat :=
  if j < 16 then x ^^^ y ^^^ z else (x &&& y) ||| ((x ^^^ 0xFFFFFFFF) &&& z)

/-- SM3 permutation P0. -/
def sm3P0 (x : Nat) : Nat := x ^^^ rotl32 x 9 ^^^ rotl32 x 17

/-- SM3 permutation P1. -/
def sm3P1 (x : Nat) : Nat := x ^^^ rotl32 x 15 ^^^ rotl32 x 23

/-- SM3 compression state: eight 32-bit words. -/
structure Sm3St where
  a : Nat
  b : Nat
  c : Nat
  d : Nat
  e : Nat
  f : Nat
  g : Nat
  h : Nat
deriving DecidableEq, Repr

/-- SM3 initial value. -/
def sm3IV : Sm3St :=
  { a := 0x7380166f, b := 0x4914b2b9, c := 0x172442d7, d := 0xda8a0600,
    e := 0xa96f30bc, f := 0x163138aa, g := 0xe38dee4d, h := 0xb0fb0e4e }

/-- Message-expansion step: the next word from the 16 most recent words
(most recent first). -/
def sm3ExpandStep (revW : List Nat) : Nat :=
  sm3P1 ((revW.getD 15 0) ^^^ (revW.getD 8 0) ^^^ rotl32 (revW.getD 2 0) 15)
    ^^^ rotl32 (revW.getD 12 0) 7 ^^^ (revW.getD 5 0)

/-- Produce `k` further expanded words (accumulated most recent first). -/
def sm3ExpandAux : Nat → List Nat → List Nat
  | 0, revW => revW
  | k + 1, revW => sm3ExpandAux k (sm3ExpandStep revW :: revW)

/-- Expand a 16-word block to the 68 words W0..W67. -/
def sm3Expand (w0 : List Nat) : List Nat := (sm3ExpandAux 52 w0.reverse).reverse

/-- One SM3 round with round index `j`, word `w` = Wj and
`w1` = Wj xor W(j+4). -/
def sm3Round (s : Sm3St) (j w w1 : Nat) : Sm3St :=
  let a12 := rotl32 s.a 12
  let ss1 := rotl32 ((a12 + s.e + rotl32 (sm3T j) j) &&& 0xFFFFFFFF) 7
  let ss2 := ss1 ^^^ a12
  let tt1 := (sm3FF j s.a s.b s.c + s.d + ss2 + w1) &&& 0xFFFFFFFF
  let tt2 := (sm3GG j s.e s.f s.g + s.h + ss1 + w) &&& 0xFFFFFFFF
  { a := tt1, b := s.a, c := rotl32 s.b 9, d := s.c,
    e := sm3P0 tt2, f := s.e, g := rotl32 s.f 19, h := s.g }

/-- One SM3 compression: 64 rounds followed by the feed-forward xor. -/
def sm3Compress (v : Sm3St) (block : List Nat) : Sm3St :=
  let w := sm3Expand block
  let s := (List.range 64).foldl
    (fun s j => sm3Round s j (w.getD j 0) ((w.getD j 0) ^^^ (w.getD (j + 4) 0))) v
  { a := v.a ^^^ s.a, b := v.b ^^^ s.b, c := v.c ^^^ s.c, d := v.d ^^^ s.d,
    e := v.e ^^^ s.e, f := v.f ^^^ s.f, g := v.g ^^^ s.g, h := v.h ^^^ s.h }

/-- Merkle-Damgard padding: byte 0x80, zeros, then the 64-bit big-endian
bit length. -/
def sm3Pad (msg : List Nat) : List Nat :=
  let l := msg.length
  let padLen := (120 - (l + 1) % 64) % 64
  msg ++ [0x80] ++ List.replicate padLen 0 ++ beBytes8 (8 * l)

/-- Group bytes into big-endian 32-bit words. -/
def beWords : List Nat → List Nat
  | b0 :: b1 :: b2 :: b3 :: rest =>
      ((b0 <<< 24) ||| (b1 <<< 16) ||| (b2 <<< 8) ||| b3) :: beWords rest
  | _ => []

/-- Split a padded message into `k` word-blocks of 64 bytes. -/
def sm3Blocks : Nat → List Nat → List (List Nat)
  | 0, _ => []
  | k + 1, l => beWords (l.take 64) :: sm3Blocks k (l.drop 64)

/-- The SM3 digest of a byte sequence: 32 bytes. -/
def sm3 (msg : List Nat) : List Nat :=
  let padded := sm3Pad msg
  let fin := (sm3Blocks (padded.length / 64) padded).foldl sm3Compress sm3IV
  wordBeBytes fin.a ++ wordBeBytes fin.b ++ wordBeBytes fin.c ++ wordBeBytes fin.d ++
  wordBeBytes fin.e ++ wordBeBytes fin.f ++ wordBeBytes fin.g ++ wordBeBytes fin.h

/-- HMAC-SM3 with the standard 64-byte block size, as produced by the
OpenSSL keyed signer used in `ReportSigner::verify`. -/
def hmacSm3 (key msg : List Nat) : List Nat :=
  let k0 := if 64 < key.length then sm3 key else key
  let kp := k0 ++ List.replicate (64 - k0.length) 0
  let ipad := kp.map (fun b => b ^^^ 0x36)
  let opad := kp.map (fun b => b ^^^ 0x5c)
  sm3 (opad ++ sm3 (ipad ++ msg))

/-! ### Error taxonomy -/

/-- Modelled from the spec: the error taxonomy of section 7 of the spec.
The definition of the crate error type (`src/error.rs`) is not among the
sources; only its use sites are.  `allocFailure` stands for the
`io::Error` values produced by the driver at `malloc` failure, and
`ioError` for the propagated OS errors (such as the failed device open). -/
inductive Error where
  | deviceUnavailable
  | ioError
  | parseFailure
  | exchangeFailure
  | malformedResponse
  | cryptoFailure
  | badSignature
  | unsupportedGroup
  | invalidPoint
  | allocFailure
deriving DecidableEq, Repr

/-! ### Guest attestation types (`src/api/guest/types.rs`)

Fixed-size `[u8; N]` arrays are embedded as `List Nat` together with a
well-formedness predicate recording the array lengths. -/

/-- Request for an attestation report (`ReportReq`): fields `data`
(64 bytes), `mnonce` (16 bytes), `hash` (32 bytes), in `repr(C)` order. -/
structure ReportReq where
  data : List Nat
  mnonce : List Nat
  hash : List Nat
deriving DecidableEq, Repr

/-- Field lengths of `ReportReq` as declared in the Rust type. -/
def ReportReq.wf (r : ReportReq) : Prop :=
  r.data.length = 64 ∧ r.mnonce.length = 16 ∧ r.hash.length = 32

instance (r : ReportReq) : Decidable r.wf := by
  unfold ReportReq.wf; infer_instance

/-- The `Default` impl of `ReportReq`: all fields zero. -/
def ReportReq.default : ReportReq :=
  { data := List.replicate 64 0, mnonce := List.replicate 16 0,
    hash := List.replicate 32 0 }

/-- The hash computed by `ReportReq::calculate_hash`: the SM3 digest of
the updates `data` then `mnonce`, which is the digest of their
concatenation.  The OpenSSL hasher calls are fallible in Rust but the
SM3 primitive is total here, so the `Result` is always `Ok`. -/
def ReportReq.calculate_hash (r : ReportReq) : ReportReq :=
  { r with hash := sm3 (r.data ++ r.mnonce) }

/-- `ReportReq::new`: start from the default, overwrite `data` when
supplied, set `mnonce`, then compute the hash. -/
def ReportReq.new (data : Option (List Nat)) (mnonce : List Nat) : ReportReq :=
  let request := ReportReq.default
  let request := match data with
    | some d => { request with data := d }
    | none => request
  let request := { request with mnonce := mnonce }
  request.calculate_hash

/-- The serialized bytes of a `ReportReq` in `repr(C)` field order.
All fields are byte arrays, so the layout has no padding. -/
def ReportReq.bytes (r : ReportReq) : List Nat := r.data ++ r.mnonce ++ r.hash

/-- The attestation report produced by the firmware
(`AttestationReport`). The four `u32` fields are `Nat` values below
`2^32`. -/
structure AttestationReport where
  user_pubkey_digest : List Nat
  vm_id : List Nat
  vm_version : List Nat
  report_data : List Nat
  mnonce : List Nat
  measure : List Nat
  policy : Nat
  sig_usage : Nat
  sig_algo : Nat
  anonce : Nat
  sig : List Nat
deriving DecidableEq, Repr

/-- Field lengths and `u32` ranges of `AttestationReport`. -/
def AttestationReport.wf (r : AttestationReport) : Prop :=
  r.user_pubkey_digest.length = 32 ∧ r.vm_id.length = 16 ∧
  r.vm_version.length = 16 ∧ r.report_data.length = 64 ∧
  r.mnonce.length = 16 ∧ r.measure.length = 32 ∧
  r.policy < 4294967296 ∧ r.sig_usage < 4294967296 ∧
  r.sig_algo < 4294967296 ∧ r.anonce < 4294967296 ∧ r.sig.length = 144

instance (r : AttestationReport) : Decidable r.wf := by
  unfold AttestationReport.wf; infer_instance

/-- The `Default` impl of `AttestationReport`: all fields zero. -/
def AttestationReport.default : AttestationReport :=
  { user_pubkey_digest := List.replicate 32 0, vm_id := List.replicate 16 0,
    vm_version := List.replicate 16 0, report_data := List.replicate 64 0,
    mnonce := List.replicate 16 0, measure := List.replicate 32 0,
    policy := 0, sig_usage := 0, sig_algo := 0, anonce := 0,
    sig := List.replicate 144 0 }

/-- The serialized bytes of an `AttestationReport` in `repr(C)` field
order; the `u32` fields serialize to 4 little-endian bytes each and all
offsets are 4-aligned, so the layout has no padding. -/
def AttestationReport.bytes (r : AttestationReport) : List Nat :=
  r.user_pubkey_digest ++ r.vm_id ++ r.vm_version ++ r.report_data ++
  r.mnonce ++ r.measure ++ toLeBytes4 r.policy ++ toLeBytes4 r.sig_usage ++
  toLeBytes4 r.sig_algo ++ toLeBytes4 r.anonce ++ r.sig

/-- The signing evidence accompanying a report (`ReportSigner`). -/
structure ReportSigner where
  pek_cert : List Nat
  sn : List Nat
  reserved : List Nat
  mac : List Nat
deriving DecidableEq, Repr

/-- Field lengths of `ReportSigner`. -/
def ReportSigner.wf (s : ReportSigner) : Prop :=
  s.pek_cert.length = 2084 ∧ s.sn.length = 64 ∧
  s.reserved.length = 32 ∧ s.mac.length = 32

instance (s : ReportSigner) : Decidable s.wf := by
  unfold ReportSigner.wf; infer_instance

/-- The serialized bytes of a `ReportSigner` in `repr(C)` field order;
all fields are byte arrays, so the layout has no padding. -/
def ReportSigner.bytes (s : ReportSigner) : List Nat :=
  s.pek_cert ++ s.sn ++ s.reserved ++ s.mac

/-- `ReportSigner::recover_mnonce` (the `self` receiver is unused in the
source): xor every byte of `mnonce` with the little-endian bytes of the
`u32` `anonce`, cycling with period 4.  The Rust loop over
`mnonce.iter().enumerate()` is embedded as structural recursion carrying
the running index. -/
def recoverAux (arr : List Nat) (idx : Nat) : List Nat → List Nat
  | [] => []
  | b :: rest => (b ^^^ arr.getD (idx % 4) 0) :: recoverAux arr (idx + 1) rest

/-- `ReportSigner::recover_mnonce`. -/
def ReportSigner.recover_mnonce (mnonce : List Nat) (anonce : Nat) : List Nat :=
  recoverAux (toLeBytes4 anonce) 0 mnonce

/-- `ReportSigner::verify`, parametric in the keyed-digest provider
`hm` (the OpenSSL HMAC boundary): recover the real mnonce, use it
directly as the HMAC key, tag `pek_cert`, `sn` and `reserved` by three
streaming updates (concatenation), fail with `BadSignature` when the tag
differs from `mac`, and on success zero `reserved` in place.  The
mutated receiver is returned as the second component. -/
def ReportSigner.verify (hm : List Nat → List Nat → List Nat)
    (s : ReportSigner) (mnonce : List Nat) (anonce : Nat) :
    Except Error Unit × ReportSigner :=
  let real_mnonce := ReportSigner.recover_mnonce mnonce anonce
  let tag := hm real_mnonce (s.pek_cert ++ s.sn ++ s.reserved)
  if tag ≠ s.mac then
    (Except.error Error.badSignature, s)
  else
    (Except.ok (), { s with reserved := s.reserved.map (fun _ => 0) })

/-- `ReportSigner::verify` with the concrete HMAC-SM3 provider used by
the crate. -/
def ReportSigner.verifySm3 (s : ReportSigner) (mnonce : List Nat)
    (anonce : Nat) : Except Error Unit × ReportSigner :=
  ReportSigner.verify hmacSm3 s mnonce anonce

/-- Byte size of `AttestationReport` (`std::mem::size_of`), from the
declared field widths: 32+16+16+64+16+32+4+4+4+4+144. -/
def attestationReportSize : Nat := 32 + 16 + 16 + 64 + 16 + 32 + 4 + 4 + 4 + 4 + 144

/-- Byte size of `ReportSigner` (`std::mem::size_of`):
2084+64+32+32. -/
def reportSignerSize : Nat := 2084 + 64 + 32 + 32

/-- The padding length of `ReportRsp.reserved`, computed in the source
as `4096 - (size_of AttestationReport + size_of ReportSigner)`. -/
def reportRspPadSize : Nat := 4096 - (attestationReportSize + reportSignerSize)

/-- The page-sized response envelope (`ReportRsp`): report, signer,
then padding to 4096 bytes. -/
structure ReportRsp where
  report : AttestationReport
  signer : ReportSigner
  reserved : List Nat
deriving DecidableEq, Repr

/-- Well-formedness of `ReportRsp`: well-formed components and the
padding length declared in the source. -/
def ReportRsp.wf (r : ReportRsp) : Prop :=
  r.report.wf ∧ r.signer.wf ∧ r.reserved.length = reportRspPadSize

instance (r : ReportRsp) : Decidable r.wf := by
  unfold ReportRsp.wf; infer_instance

/-- The serialized bytes of a `ReportRsp` in `repr(C)` field order. -/
def ReportRsp.bytes (r : ReportRsp) : List Nat :=
  r.report.bytes ++ r.signer.bytes ++ r.reserved

/-! ### Topology reader (`src/api/dcu/mod.rs`)

The filesystem is passed in explicitly: a file read is a
`String → Except Unit String` map from paths to contents, and a
directory listing is an `Except Unit (List (Except Unit String))` of
entry names, `Except.error` standing for an unreadable directory or
entry. -/

/-- The sysfs path read by `topology_sysfs_get_gpu_id`. -/
def gpuIdPath (sysfs_node_id : Nat) : String :=
  "/sys/devices/virtual/kfd/kfd/topology/nodes/" ++ toString sysfs_node_id ++ "/gpu_id"

/-- Whitespace as trimmed by the Rust `str::trim` (the ASCII subset of
`char::is_whitespace`, which covers the contents of sysfs files). -/
def isRustWhitespace (c : Char) : Bool :=
  c = ' ' || c = '\t' || c = '\n' || c = '\r' || c = '\x0b' || c = '\x0c'

/-- Drop leading whitespace. -/
def trimLeft : List Char → List Char
  | [] => []
  | c :: rest => if isRustWhitespace c then trimLeft rest else c :: rest

/-- The Rust `str::trim`: drop whitespace from both ends. -/
def trim (cs : List Char) : List Char :=
  (trimLeft (trimLeft cs).reverse).reverse

/-- The Rust `str::parse::<u32>`: an optional leading plus sign, then
one or more ASCII digits, with the value required to fit in 32 bits
(`none` models the parse or overflow error). -/
def parseU32 (cs : List Char) : Option Nat :=
  let ds := match cs with
    | '+' :: rest => rest
    | _ => cs
  if ds.isEmpty then none
  else if ds.all Char.isDigit then
    let v := ds.foldl (fun acc c => acc * 10 + (c.toNat - 48)) 0
    if v < 4294967296 then some v else none
  else none

/-- The two `io::Error` shapes produced by `topology_sysfs_get_gpu_id`:
a propagated OS read error (the IOFailure of the spec) and the
`InvalidData` error built at parse failure (the ParseFailure of the
spec). -/
inductive TopoErr where
  | ioFailure
  | parseFailure
deriving DecidableEq, Repr

/-- `topology_sysfs_get_gpu_id`: read the per-node `gpu_id` file, trim
it, parse a `u32`; a read error propagates, a parse failure maps to
`InvalidData`. -/
def topology_sysfs_get_gpu_id (fs : String → Except Unit String)
    (sysfs_node_id : Nat) : Except TopoErr Nat :=
  match fs (gpuIdPath sysfs_node_id) with
  | Except.error _ => Except.error TopoErr.ioFailure
  | Except.ok contents =>
    match parseU32 (trim contents.toList) with
    | some v => Except.ok v
    | none => Except.error TopoErr.parseFailure

/-- `num_subdirs`: count the readable entries that are not `.` or `..`
and match the prefix; an unreadable directory yields 0 via
`unwrap_or(0)`. -/
def num_subdirs (listing : Except Unit (List (Except Unit String)))
    (pre : String) : Nat :=
  match listing with
  | Except.error _ => 0
  | Except.ok entries =>
    ((entries.filterMap Except.toOption).filter
      (fun name => (!(name == "." || name == "..")) &&
        (pre.isEmpty || name.startsWith pre))).length

/-! ### Device exchange driver (`DcuGuest::get_report`)

The driver is embedded as a function of an environment describing the
outcomes of the external effects (device open, per-node gpu-id
resolution, the two `malloc` calls and the ioctl exchange), and it
returns the Rust result together with the trace of allocation, free,
ioctl and close events it performed, on which the buffer-discipline
claims are stated. -/

/-- Modelled from the spec: `PAGE_SIZE` is defined in the missing
`src/api/dcu` submodules; the spec fixes the response envelope (and the
page) at 4096 bytes. -/
def PAGE_SIZE : Nat := 4096

/-- Modelled from the spec: the byte size of the DCU `ReportReq`
(`std::mem::size_of::<ReportReq>()`, used for the request `malloc`).
The type lives in the missing `src/api/dcu/types.rs`; the spec fixes
the request record at 112 bytes (64+16+32). -/
def dcuReportReqSize : Nat := 112

/-- The ioctl argument record `MkfdIoctlSecurityAttestationArgs` (its
declaration is in the missing `src/api/dcu/ioctl.rs`; the fields are
those of the literal at its use site).  The two data pointers are
modelled as optional buffer identifiers, `none` standing for null. -/
structure MkfdIoctlSecurityAttestationArgs where
  gpu_id : Nat
  version : Nat
  request_data : Option Nat
  request_size : Nat
  response_data : Option Nat
  response_size : Nat
  fw_err : Nat
deriving DecidableEq, Repr

/-- Identifier of the request buffer allocated for node `n`. -/
def reqBuf (n : Nat) : Nat := 2 * n

/-- Identifier of the response buffer allocated for node `n`. -/
def rspBuf (n : Nat) : Nat := 2 * n + 1

/-- Events performed by the driver. -/
inductive Ev where
  | alloc (id sz : Nat)
  | free (id : Nat)
  | ioctl (a : MkfdIoctlSecurityAttestationArgs)
  | closeFd
deriving DecidableEq, Repr

/-- Environment of one `get_report` run: outcomes of the external
effects. -/
structure DcuEnv where
  openOk : Bool
  numNode : Nat
  gpuId : Nat → Option Nat
  reqAllocOk : Nat → Bool
  rspAllocOk : Nat → Bool
  ioctlOk : Nat → Bool

/-- The ioctl arguments as filled in by the source for node `n` with
resolved id `gid`: version 1, both sizes set to `PAGE_SIZE`, pointers
set to the two freshly allocated buffers. -/
def nodeArgs (gid n : Nat) : MkfdIoctlSecurityAttestationArgs :=
  { gpu_id := gid, version := 1,
    request_data := some (reqBuf n), request_size := PAGE_SIZE,
    response_data := some (rspBuf n), response_size := PAGE_SIZE,
    fw_err := 0 }

/-- Events of one fully executed node iteration: both allocations, the
exchange, then both frees (the frees are the same on the ioctl failure
and success paths). -/
def nodeEvs (n gid : Nat) : List Ev :=
  [Ev.alloc (reqBuf n) dcuReportReqSize, Ev.alloc (rspBuf n) PAGE_SIZE,
   Ev.ioctl (nodeArgs gid n), Ev.free (reqBuf n), Ev.free (rspBuf n)]

/-- The per-node loop of `get_report` over the remaining node indices.
A node whose gpu-id resolution fails is skipped; a failed request
`malloc` returns the error with nothing allocated in this iteration; a
failed response `malloc` returns the error right after the request
buffer was allocated (without freeing it); otherwise the exchange is
issued and both buffers are freed whether or not the ioctl failed.
After the last node the device descriptor is closed and the function
returns `Ok(AttestationReport::default())` (the response processing is
a stub in the source). -/
def runNodes (env : DcuEnv) : List Nat → Except Error AttestationReport × List Ev
  | [] => (Except.ok AttestationReport.default, [Ev.closeFd])
  | n :: rest =>
    match env.gpuId n with
    | none => runNodes env rest
    | some gid =>
      if env.reqAllocOk n then
        if env.rspAllocOk n then
          let r := runNodes env rest
          (r.1, nodeEvs n gid ++ r.2)
        else (Except.error Error.allocFailure, [Ev.alloc (reqBuf n) dcuReportReqSize])
      else (Except.error Error.allocFailure, [])

/-- `DcuGuest::get_report`: open `/dev/mkfd` (an open failure is
returned as the fatal device error with no node attempted), then run
the per-node loop over nodes `0..numNode`. -/
def DcuGuest.get_report (env : DcuEnv) : Except Error AttestationReport × List Ev :=
  if env.openOk then runNodes env (List.range env.numNode)
  else (Except.error Error.deviceUnavailable, [])

/-- Number of allocations of buffer `b` in a trace. -/
def allocCount (t : List Ev) (b : Nat) : Nat :=
  (t.filter (fun e => match e with
    | Ev.alloc id _ => id == b
    | _ => false)).length

/-- Number of frees of buffer `b` in a trace. -/
def freeCount (t : List Ev) (b : Nat) : Nat :=
  (t.filter (fun e => match e with
    | Ev.free id => id == b
    | _ => false)).length

/-! ### Concrete fixtures -/

/-- The 64-byte `data` of the unit test `report_req::test_new` in
`src/api/guest/types.rs`. -/
def goldenData : List Nat :=
  [103, 198, 105, 115, 81, 255, 74, 236, 41, 205, 186, 171, 242, 251, 227, 70, 124,
   194, 84, 248, 27, 232, 231, 141, 118, 90, 46, 99, 51, 159, 201, 154, 102, 50, 13,
   183, 49, 88, 163, 90, 37, 93, 5, 23, 88, 233, 94, 212, 171, 178, 205, 198, 155,
   180, 84, 17, 14, 130, 116, 65, 33, 61, 220, 135]

/-- The 16-byte `mnonce` of the unit test `report_req::test_new`. -/
def goldenMnonce : List Nat :=
  [112, 233, 62, 161, 65, 225, 252, 103, 62, 1, 126, 151, 234, 220, 107, 150]

/-- The expected 32-byte hash of the unit test `report_req::test_new`. -/
def goldenHash : List Nat :=
  [19, 76, 8, 98, 33, 246, 247, 155, 28, 21, 245, 185, 118, 74, 162, 128, 82, 15, 160,
   233, 212, 130, 106, 177, 89, 6, 119, 243, 130, 21, 3, 153]

/-- Environment with one node whose whole iteration succeeds. -/
def envAllOk : DcuEnv :=
  { openOk := true, numNode := 1, gpuId := fun _ => some 7,
    reqAllocOk := fun _ => true, rspAllocOk := fun _ => true,
    ioctlOk := fun _ => true }

/-- Environment with one node whose response-buffer allocation fails
(after the request buffer was allocated). -/
def envRspAllocFail : DcuEnv :=
  { openOk := true, numNode := 1, gpuId := fun _ => some 7,
    reqAllocOk := fun _ => true, rspAllocOk := fun _ => false,
    ioctlOk := fun _ => true }

/-- Environment with one node whose ioctl exchange fails. -/
def envExchangeFail : DcuEnv :=
  { openOk := true, numNode := 1, gpuId := fun _ => some 7,
    reqAllocOk := fun _ => true, rspAllocOk := fun _ => true,
    ioctlOk := fun _ => false }

/-- Environment whose topology has no nodes at all. -/
def envNoNodes : DcuEnv :=
  { openOk := true, numNode := 0, gpuId := fun _ => none,
    reqAllocOk := fun _ => true, rspAllocOk := fun _ => true,
    ioctlOk := fun _ => true }

/-- A signer accepted by `verifySm3` at mnonce `[]`, anonce `0`: its
`mac` is the HMAC-SM3 tag of `pek_cert ++ sn ++ reserved = [7]` under
the recovered key `[]`. -/
def acceptedSigner : ReportSigner :=
  { pek_cert := [], sn := [], reserved := [7],
    mac := [3, 11, 128, 53, 41, 253, 44, 86, 207, 227, 152, 9, 233, 143, 50, 237,
            241, 231, 199, 177, 94, 108, 214, 50, 127, 138, 126, 206, 49, 213, 131, 255] }

/-- Decidable equality on `Except`, needed to evaluate the results of
the embedded fallible operations. -/
instance {ε α : Type} [DecidableEq ε] [DecidableEq α] : DecidableEq (Except ε α) :=
  fun a b =>
    match a, b with
    | Except.error e, Except.error e2 =>
      if h : e = e2 then Decidable.isTrue (by rw [h])
      else Decidable.isFalse (by intro hh; cases hh; exact h rfl)
    | Except.error _, Except.ok _ => Decidable.isFalse (by intro hh; cases hh)
    | Except.ok _, Except.error _ => Decidable.isFalse (by intro hh; cases hh)
    | Except.ok v, Except.ok v2 =>
      if h : v = v2 then Decidable.isTrue (by rw [h])
      else Decidable.isFalse (by intro hh; cases hh; exact h rfl)

/-! ## Helper lemmas -/

/-- Closed-form characterization of `ReportSigner.verify`. -/
theorem verify_eq (hm : List Nat → List Nat → List Nat) (s : ReportSigner)
    (mnonce : List Nat) (anonce : Nat) :
    ReportSigner.verify hm s mnonce anonce =
      if hm (ReportSigner.recover_mnonce mnonce anonce)
          (s.pek_cert ++ s.sn ++ s.reserved) = s.mac
      then (Except.ok (), { s with reserved := List.replicate s.reserved.length 0 })
      else (Except.error Error.badSignature, s) := by
  show (if hm (ReportSigner.recover_mnonce mnonce anonce)
          (s.pek_cert ++ s.sn ++ s.reserved) ≠ s.mac
      then (Except.error Error.badSignature, s)
      else (Except.ok (), { s with reserved := s.reserved.map (fun _ => 0) })) = _
  by_cases h : hm (ReportSigner.recover_mnonce mnonce anonce)
      (s.pek_cert ++ s.sn ++ s.reserved) = s.mac
  · rw [if_neg (not_not_intro h), if_pos h, List.map_const']
  · rw [if_pos h, if_neg h]

/-- Index-wise characterization of the loop of `recover_mnonce`. -/
theorem recoverAux_getD (arr l : List Nat) :
    ∀ (idx i : Nat), i < l.length →
      (recoverAux arr idx l).getD i 0 = (l.getD i 0) ^^^ arr.getD ((idx + i) % 4) 0 := by
  induction l with
  | nil => intro idx i h; simp at h
  | cons b rest ih =>
    intro idx i h
    cases i with
    | zero => simp [recoverAux]
    | succ i =>
      have h2 : i < rest.length := by simpa using h
      have hrec := ih (idx + 1) i h2
      simp only [recoverAux, List.getD_cons_succ]
      rw [hrec]
      have harg : idx + 1 + i = idx + (i + 1) := by omega
      rw [harg]

/-! ## Claims -/

/-- C2: for every 16-byte mnonce and 32-bit anonce, the recovered nonce
satisfies `real_mnonce[i] = mnonce[i] xor anonce_le_bytes[i mod 4]` for
every index `i < 16`, where `anonce_le_bytes` is the 4-byte
little-endian representation of `anonce`. -/
theorem recover_mnonce_xor_le_bytes (mnonce : List Nat) (anonce i : Nat)
    (hm : mnonce.length = 16) (_ha : anonce < 4294967296) (hi : i < 16) :
    (ReportSigner.recover_mnonce mnonce anonce).getD i 0 =
      (mnonce.getD i 0) ^^^ ((toLeBytes4 anonce).getD (i % 4) 0) := by
  have h := recoverAux_getD (toLeBytes4 anonce) mnonce 0 i (by rw [hm]; exact hi)
  simpa [ReportSigner.recover_mnonce] using h

/-- Witness for C2 at the mnonce of the repo unit test, anonce
`0x04030201` and index 5. -/
theorem recover_mnonce_xor_le_bytes_witness :
    (ReportSigner.recover_mnonce goldenMnonce 67305985).getD 5 0 =
      (goldenMnonce.getD 5 0) ^^^ ((toLeBytes4 67305985).getD (5 % 4) 0) :=
  recover_mnonce_xor_le_bytes goldenMnonce 67305985 5 (by decide) (by decide) (by decide)

/-- C3: the request built by `ReportReq::new` carries the supplied data
(or 64 zero bytes when omitted), the supplied mnonce, and the SM3
digest of `data ++ mnonce` as its hash. -/
theorem reportReq_new_fields (data : Option (List Nat)) (mnonce : List Nat) :
    (ReportReq.new data mnonce).data = data.getD (List.replicate 64 0) ∧
    (ReportReq.new data mnonce).mnonce = mnonce ∧
    (ReportReq.new data mnonce).hash =
      sm3 (data.getD (List.replicate 64 0) ++ mnonce) := by
  cases data <;>
    simp [ReportReq.new, ReportReq.calculate_hash, ReportReq.default]

/-- The embedded `ReportReq::new` reproduces the golden vector of the
unit test `report_req::test_new` of the source, validating the SM3
implementation against the crate. -/
theorem reportReq_new_matches_unit_test :
    ReportReq.new (some goldenData) goldenMnonce =
      { data := goldenData, mnonce := goldenMnonce, hash := goldenHash } := by
  decide

/-- C1: `ReportSigner::verify` succeeds exactly when `mac` equals the
HMAC-SM3 tag of `pek_cert ++ sn ++ reserved` under the recovered
mnonce as key, and a mismatch produces the `BadSignature` error. -/
theorem verify_ok_iff_mac_eq_hmac (s : ReportSigner) (mnonce : List Nat) (anonce : Nat) :
    ((ReportSigner.verifySm3 s mnonce anonce).1 = Except.ok () ↔
      s.mac = hmacSm3 (ReportSigner.recover_mnonce mnonce anonce)
        (s.pek_cert ++ s.sn ++ s.reserved)) ∧
    (s.mac ≠ hmacSm3 (ReportSigner.recover_mnonce mnonce anonce)
        (s.pek_cert ++ s.sn ++ s.reserved) →
      (ReportSigner.verifySm3 s mnonce anonce).1 = Except.error Error.badSignature) := by
  unfold ReportSigner.verifySm3
  rw [verify_eq]
  by_cases h : hmacSm3 (ReportSigner.recover_mnonce mnonce anonce)
      (s.pek_cert ++ s.sn ++ s.reserved) = s.mac
  · rw [if_pos h]
    exact ⟨by simp [h.symm], fun hne => absurd h.symm hne⟩
  · rw [if_neg h]
    refine ⟨⟨fun hok => absurd hok (by simp), fun hmac => absurd hmac.symm h⟩, fun _ => rfl⟩

/-- Witness for C1: a signer whose mac (empty) cannot equal the 32-byte
tag is rejected with `BadSignature`. -/
theorem verify_ok_iff_mac_eq_hmac_witness :
    (ReportSigner.verifySm3 { pek_cert := [1], sn := [], reserved := [], mac := [] } [] 0).1 =
      Except.error Error.badSignature :=
  (verify_ok_iff_mac_eq_hmac { pek_cert := [1], sn := [], reserved := [], mac := [] } [] 0).2
    (by decide)

/-- C4: after a successful `ReportSigner::verify`, the `reserved` field
of the returned signer is all-zero, whatever it held before. -/
theorem verify_ok_zeroes_reserved (s : ReportSigner) (mnonce : List Nat) (anonce : Nat)
    (h : (ReportSigner.verifySm3 s mnonce anonce).1 = Except.ok ()) :
    (ReportSigner.verifySm3 s mnonce anonce).2.reserved =
      List.replicate s.reserved.length 0 := by
  unfold ReportSigner.verifySm3 at h ⊢
  rw [verify_eq] at h ⊢
  by_cases hc : hmacSm3 (ReportSigner.recover_mnonce mnonce anonce)
      (s.pek_cert ++ s.sn ++ s.reserved) = s.mac
  · rw [if_pos hc]
  · rw [if_neg hc] at h
    exact absurd h (by simp)

/-- Witness for C4: a successful verification of `acceptedSigner` zeroes
its one-byte-nonzero `reserved` region. -/
theorem verify_ok_zeroes_reserved_witness :
    (ReportSigner.verifySm3 acceptedSigner [] 0).2.reserved =
      List.replicate acceptedSigner.reserved.length 0 :=
  verify_ok_zeroes_reserved acceptedSigner [] 0 (by decide)

/-- C10: when `ReportSigner::verify` fails with `BadSignature`, the
signer is returned entirely unchanged: `reserved` is not zeroed and no
other field is modified. -/
theorem verify_err_leaves_signer (s : ReportSigner) (mnonce : List Nat) (anonce : Nat)
    (h : (ReportSigner.verifySm3 s mnonce anonce).1 = Except.error Error.badSignature) :
    (ReportSigner.verifySm3 s mnonce anonce).2 = s := by
  unfold ReportSigner.verifySm3 at h ⊢
  rw [verify_eq] at h ⊢
  by_cases hc : hmacSm3 (ReportSigner.recover_mnonce mnonce anonce)
      (s.pek_cert ++ s.sn ++ s.reserved) = s.mac
  · rw [if_pos hc] at h
    exact absurd h (by simp)
  · rw [if_neg hc]

/-- Witness for C10: a rejected signer comes back unchanged. -/
theorem verify_err_leaves_signer_witness :
    (ReportSigner.verifySm3 { pek_cert := [], sn := [], reserved := [], mac := [3] } [] 0).2 =
      { pek_cert := [], sn := [], reserved := [], mac := [3] } :=
  verify_err_leaves_signer { pek_cert := [], sn := [], reserved := [], mac := [3] } [] 0
    (by decide)

/-- C6: a well-formed request record serializes to exactly 112 bytes in
order `data | mnonce | hash`, a well-formed response envelope to exactly
`PAGE_SIZE` = 4096 bytes, and the three declared sizes sum to the page
size (the content of the `const_assert` build-time check). -/
theorem record_sizes (req : ReportReq) (rsp : ReportRsp)
    (hreq : req.wf) (hrsp : rsp.wf) :
    req.bytes = req.data ++ req.mnonce ++ req.hash ∧
    req.bytes.length = 112 ∧
    rsp.bytes.length = PAGE_SIZE ∧
    attestationReportSize + reportSignerSize + reportRspPadSize = PAGE_SIZE := by
  obtain ⟨h1, h2, h3⟩ := hreq
  obtain ⟨⟨a1, a2, a3, a4, a5, a6, _, _, _, _, a11⟩, ⟨s1, s2, s3, s4⟩, hpad⟩ := hrsp
  refine ⟨rfl, ?_, ?_, rfl⟩
  · simp [ReportReq.bytes, h1, h2, h3]
  · simp [ReportRsp.bytes, AttestationReport.bytes, ReportSigner.bytes, toLeBytes4,
      a1, a2, a3, a4, a5, a6, a11, s1, s2, s3, s4, hpad, reportRspPadSize,
      attestationReportSize, reportSignerSize, PAGE_SIZE]

/-- Witness for C6 at the all-zero request and response records. -/
theorem record_sizes_witness :
    ReportReq.default.bytes.length = 112 ∧
    ({ report := AttestationReport.default,
       signer := { pek_cert := List.replicate 2084 0, sn := List.replicate 64 0,
                   reserved := List.replicate 32 0, mac := List.replicate 32 0 },
       reserved := List.replicate reportRspPadSize 0 } : ReportRsp).bytes.length = PAGE_SIZE :=
  have h := record_sizes ReportReq.default
    { report := AttestationReport.default,
      signer := { pek_cert := List.replicate 2084 0, sn := List.replicate 64 0,
                  reserved := List.replicate 32 0, mac := List.replicate 32 0 },
      reserved := List.replicate reportRspPadSize 0 }
    (by norm_num [ReportReq.default, ReportReq.wf])
    (by norm_num [ReportRsp.wf, AttestationReport.wf, ReportSigner.wf,
      AttestationReport.default])
  ⟨h.2.1, h.2.2.1⟩

/-- C9 (amended): the gpu-id read fails with the propagated IO error
when the file is unreadable and with the `InvalidData` parse error when
its content does not parse as a `u32`; the entries `.` and `..` are
excluded from enumeration; but an unreadable topology directory makes
`num_subdirs` return 0 instead of failing. -/
theorem topology_reader_errors (fs : String → Except Unit String) (n : Nat)
    (entries : List (Except Unit String)) (pre : String) :
    (fs (gpuIdPath n) = Except.error () →
      topology_sysfs_get_gpu_id fs n = Except.error TopoErr.ioFailure) ∧
    (∀ s, fs (gpuIdPath n) = Except.ok s → parseU32 (trim s.toList) = none →
      topology_sysfs_get_gpu_id fs n = Except.error TopoErr.parseFailure) ∧
    num_subdirs (Except.ok (Except.ok "." :: entries)) pre =
      num_subdirs (Except.ok entries) pre ∧
    num_subdirs (Except.ok (Except.ok ".." :: entries)) pre =
      num_subdirs (Except.ok entries) pre ∧
    num_subdirs (Except.error ()) pre = 0 := by
  refine ⟨?_, ?_, ?_, ?_, rfl⟩
  · intro h
    unfold topology_sysfs_get_gpu_id
    rw [h]
  · intro s hs hp
    unfold topology_sysfs_get_gpu_id
    rw [hs]
    show (match parseU32 (trim s.toList) with
      | some v => Except.ok v
      | none => Except.error TopoErr.parseFailure) = Except.error TopoErr.parseFailure
    rw [hp]
  · have hp : ((!(("." : String) == "." || ("." : String) == "..")) &&
        (pre.isEmpty || String.startsWith "." pre)) = false := by
      simp [show (("." : String) == ".") = true from by decide]
    simp [num_subdirs, List.filterMap_cons, Except.toOption, List.filter_cons, hp]
  · have hp : ((!((".." : String) == "." || (".." : String) == "..")) &&
        (pre.isEmpty || String.startsWith ".." pre)) = false := by
      simp [show ((".." : String) == "..") = true from by decide]
    simp [num_subdirs, List.filterMap_cons, Except.toOption, List.filter_cons, hp]

/-- Witness for C9: concrete unreadable file, unparsable file, and a
listing containing `.`. -/
theorem topology_reader_errors_witness :
    topology_sysfs_get_gpu_id (fun _ => Except.error ()) 0 = Except.error TopoErr.ioFailure ∧
    topology_sysfs_get_gpu_id (fun _ => Except.ok "gpu") 1 = Except.error TopoErr.parseFailure ∧
    num_subdirs (Except.ok [Except.ok ".", Except.ok "2"]) "" =
      num_subdirs (Except.ok [Except.ok "2"]) "" :=
  ⟨(topology_reader_errors (fun _ => Except.error ()) 0 [] "").1 rfl,
   (topology_reader_errors (fun _ => Except.ok "gpu") 1 [] "").2.1 "gpu" rfl (by decide),
   (topology_reader_errors (fun _ => Except.ok "x") 0 [Except.ok "2"] "").2.2.1⟩

/-- Counterexample for C9 as stated: an unreadable topology directory
does not fail with an IO error; `num_subdirs` silently returns 0,
indistinguishable from an empty readable directory. -/
theorem num_subdirs_unreadable_counterexample :
    num_subdirs (Except.error ()) "" = 0 ∧
    num_subdirs (Except.error ()) "" = num_subdirs (Except.ok []) "" :=
  ⟨rfl, rfl⟩

/-- Allocation counts add over trace concatenation. -/
theorem allocCount_append (t1 t2 : List Ev) (b : Nat) :
    allocCount (t1 ++ t2) b = allocCount t1 b + allocCount t2 b := by
  simp [allocCount, List.filter_append]

/-- Free counts add over trace concatenation. -/
theorem freeCount_append (t1 t2 : List Ev) (b : Nat) :
    freeCount (t1 ++ t2) b = freeCount t1 b + freeCount t2 b := by
  simp [freeCount, List.filter_append]

/-- Unfolding of the node loop at a node whose gpu-id resolution
fails. -/
theorem runNodes_cons_none (env : DcuEnv) (n : Nat) (rest : List Nat)
    (hg : env.gpuId n = none) :
    runNodes env (n :: rest) = runNodes env rest := by
  rw [runNodes, hg]

/-- Unfolding of the node loop at a node whose gpu-id resolves. -/
theorem runNodes_cons_some (env : DcuEnv) (n : Nat) (rest : List Nat) (gid : Nat)
    (hg : env.gpuId n = some gid) :
    runNodes env (n :: rest) =
      if env.reqAllocOk n then
        if env.rspAllocOk n then
          ((runNodes env rest).1, nodeEvs n gid ++ (runNodes env rest).2)
        else (Except.error Error.allocFailure, [Ev.alloc (reqBuf n) dcuReportReqSize])
      else (Except.error Error.allocFailure, []) := by
  rw [runNodes, hg]

/-- Allocations of one full node iteration, per buffer. -/
theorem allocCount_nodeEvs (n gid b : Nat) :
    allocCount (nodeEvs n gid) b =
      (if reqBuf n = b then 1 else 0) + (if rspBuf n = b then 1 else 0) := by
  by_cases h1 : reqBuf n = b <;> by_cases h2 : rspBuf n = b <;>
  · have e1 : (reqBuf n == b) = decide (reqBuf n = b) := by
      by_cases h : reqBuf n = b <;> simp [h]
    have e2 : (rspBuf n == b) = decide (rspBuf n = b) := by
      by_cases h : rspBuf n = b <;> simp [h]
    simp [nodeEvs, allocCount, List.filter, e1, e2, h1, h2]

/-- Frees of one full node iteration, per buffer. -/
theorem freeCount_nodeEvs (n gid b : Nat) :
    freeCount (nodeEvs n gid) b =
      (if reqBuf n = b then 1 else 0) + (if rspBuf n = b then 1 else 0) := by
  by_cases h1 : reqBuf n = b <;> by_cases h2 : rspBuf n = b <;>
  · have e1 : (reqBuf n == b) = decide (reqBuf n = b) := by
      by_cases h : reqBuf n = b <;> simp [h]
    have e2 : (rspBuf n == b) = decide (rspBuf n = b) := by
      by_cases h : rspBuf n = b <;> simp [h]
    simp [nodeEvs, freeCount, List.filter, e1, e2, h1, h2]

/-- Every buffer allocated in a run of the node loop belongs to one of
the attempted nodes. -/
theorem runNodes_alloc_mem (env : DcuEnv) :
    ∀ (nodes : List Nat) (b : Nat),
      0 < allocCount (runNodes env nodes).2 b →
      ∃ n ∈ nodes, b = reqBuf n ∨ b = rspBuf n := by
  intro nodes
  induction nodes with
  | nil => intro b h; simp [runNodes, allocCount, List.filter] at h
  | cons n rest ih =>
    intro b h
    cases hg : env.gpuId n with
    | none =>
      rw [runNodes_cons_none env n rest hg] at h
      obtain ⟨m, hm, hbm⟩ := ih b h
      exact ⟨m, List.mem_cons_of_mem n hm, hbm⟩
    | some gid =>
      rw [runNodes_cons_some env n rest gid hg] at h
      by_cases hr : env.reqAllocOk n = true
      · by_cases hs : env.rspAllocOk n = true
        · rw [if_pos hr, if_pos hs] at h
          simp only [allocCount_append, allocCount_nodeEvs] at h
          by_cases h1 : reqBuf n = b
          · exact ⟨n, List.mem_cons_self n rest, Or.inl h1.symm⟩
          · by_cases h2 : rspBuf n = b
            · exact ⟨n, List.mem_cons_self n rest, Or.inr h2.symm⟩
            · rw [if_neg h1, if_neg h2] at h
              simp only [Nat.zero_add, Nat.add_zero] at h
              obtain ⟨m, hm, hbm⟩ := ih b h
              exact ⟨m, List.mem_cons_of_mem n hm, hbm⟩
        · rw [if_pos hr, if_neg hs] at h
          by_cases h1 : reqBuf n = b
          · exact ⟨n, List.mem_cons_self n rest, Or.inl h1.symm⟩
          · have e1 : (reqBuf n == b) = decide (reqBuf n = b) := by
              simp [h1]
            simp [allocCount, List.filter, e1, h1] at h
      · rw [if_neg hr] at h
        simp [allocCount, List.filter] at h

/-- Buffer discipline of the node loop: at most one allocation per
buffer, never more frees than allocations, and on runs that return
success every allocation is matched by exactly one free. -/
theorem runNodes_counts (env : DcuEnv) :
    ∀ (nodes : List Nat), nodes.Nodup → ∀ (b : Nat),
      allocCount (runNodes env nodes).2 b ≤ 1 ∧
      freeCount (runNodes env nodes).2 b ≤ allocCount (runNodes env nodes).2 b ∧
      (∀ r, (runNodes env nodes).1 = Except.ok r →
        freeCount (runNodes env nodes).2 b = allocCount (runNodes env nodes).2 b) := by
  intro nodes
  induction nodes with
  | nil =>
    intro _ b
    refine ⟨?_, ?_, fun r _ => ?_⟩ <;> simp [runNodes, allocCount, freeCount, List.filter]
  | cons n rest ih =>
    intro hnd b
    obtain ⟨hn, hndrest⟩ := List.nodup_cons.mp hnd
    cases hg : env.gpuId n with
    | none =>
      rw [runNodes_cons_none env n rest hg]
      exact ih hndrest b
    | some gid =>
      rw [runNodes_cons_some env n rest gid hg]
      by_cases hr : env.reqAllocOk n = true
      · by_cases hs : env.rspAllocOk n = true
        · rw [if_pos hr, if_pos hs]
          simp only [allocCount_append, freeCount_append, allocCount_nodeEvs,
            freeCount_nodeEvs]
          obtain ⟨iha, ihf, ihok⟩ := ih hndrest b
          by_cases hb : reqBuf n = b ∨ rspBuf n = b
          · have hz : allocCount (runNodes env rest).2 b = 0 := by
              by_contra hnz
              obtain ⟨m, hm, hbm⟩ :=
                runNodes_alloc_mem env rest b (Nat.pos_of_ne_zero hnz)
              have hnm : n = m := by
                rcases hb with h1 | h1 <;> rcases hbm with h2 | h2 <;>
                  (rw [← h1] at h2; simp [reqBuf, rspBuf] at h2 ⊢) <;> omega
              exact hn (hnm ▸ hm)
            have hfz : freeCount (runNodes env rest).2 b = 0 :=
              Nat.le_zero.mp (hz ▸ ihf)
            have hone : ((if reqBuf n = b then 1 else 0) +
                (if rspBuf n = b then 1 else 0) : Nat) = 1 := by
              rcases hb with h1 | h1
              · have h2 : rspBuf n ≠ b := by
                  rw [← h1]; simp only [reqBuf, rspBuf]; omega
                rw [if_pos h1, if_neg h2]
              · have h2 : reqBuf n ≠ b := by
                  rw [← h1]; simp only [reqBuf, rspBuf]; omega
                rw [if_pos h1, if_neg h2]
            rw [hz, hfz, hone]
            exact ⟨le_refl 1, le_refl 1, fun _ _ => rfl⟩
          · push_neg at hb
            rw [if_neg hb.1, if_neg hb.2]
            simp only [Nat.zero_add, Nat.add_zero]
            exact ⟨iha, ihf, fun r hr2 => ihok r hr2⟩
        · rw [if_pos hr, if_neg hs]
          refine ⟨?_, ?_, fun r hr2 => ?_⟩
          · by_cases h1 : reqBuf n = b <;>
            · have e1 : (reqBuf n == b) = decide (reqBuf n = b) := by simp [h1]
              simp [allocCount, List.filter, e1, h1]
          · by_cases h1 : reqBuf n = b <;>
            · have e1 : (reqBuf n == b) = decide (reqBuf n = b) := by simp [h1]
              simp [allocCount, freeCount, List.filter, e1, h1]
          · exact absurd hr2 (by simp)
      · rw [if_neg hr]
        refine ⟨?_, ?_, fun r hr2 => ?_⟩
        · simp [allocCount, List.filter]
        · simp [allocCount, freeCount, List.filter]
        · exact absurd hr2 (by simp)

/-- Every ioctl event issued by the node loop carries the argument
record built by the source for some node. -/
theorem runNodes_ioctl_mem (env : DcuEnv) :
    ∀ (nodes : List Nat) (a : MkfdIoctlSecurityAttestationArgs),
      Ev.ioctl a ∈ (runNodes env nodes).2 → ∃ gid n, a = nodeArgs gid n := by
  intro nodes
  induction nodes with
  | nil => intro a h; simp [runNodes] at h
  | cons n rest ih =>
    intro a h
    cases hg : env.gpuId n with
    | none =>
      rw [runNodes_cons_none env n rest hg] at h
      exact ih a h
    | some gid =>
      rw [runNodes_cons_some env n rest gid hg] at h
      by_cases hr : env.reqAllocOk n = true
      · by_cases hs : env.rspAllocOk n = true
        · rw [if_pos hr, if_pos hs] at h
          have h2 : Ev.ioctl a ∈ nodeEvs n gid ++ (runNodes env rest).2 := h
          rcases List.mem_append.mp h2 with hin | hin
          · simp only [nodeEvs, List.mem_cons, List.not_mem_nil, or_false] at hin
            rcases hin with h1 | h1 | h1 | h1 | h1 <;> first
              | (cases h1; exact ⟨gid, n, rfl⟩)
              | cases h1
          · exact ih a hin
        · rw [if_pos hr, if_neg hs] at h
          simp at h
      · rw [if_neg hr] at h
        simp at h

/-- C5: evaluation of `get_report` at the failing inputs.  The claim
asserts three terminal outcomes (success carrying a report only if some
node produced a valid response, an all-nodes-failed error, a
device-unavailable error); the code instead returns
`Ok(AttestationReport::default())` whenever the device opened, even
when the only exchange failed or no node exists, since the response
processing is a stub (`// Replace with actual processing of response`). -/
theorem get_report_ok_despite_all_failures :
    (DcuGuest.get_report envExchangeFail).1 = Except.ok AttestationReport.default ∧
    (DcuGuest.get_report envNoNodes).1 = Except.ok AttestationReport.default :=
  ⟨rfl, rfl⟩

/-- C7 (amended): every buffer is allocated at most once and freed at
most once, and on every run that returns success each allocated buffer
is freed exactly once; the early-return path where the response-buffer
allocation fails leaks the request buffer (see the counterexample). -/
theorem buffer_discipline (env : DcuEnv) (b : Nat) :
    allocCount (DcuGuest.get_report env).2 b ≤ 1 ∧
    freeCount (DcuGuest.get_report env).2 b ≤ allocCount (DcuGuest.get_report env).2 b ∧
    (∀ r, (DcuGuest.get_report env).1 = Except.ok r →
      freeCount (DcuGuest.get_report env).2 b = allocCount (DcuGuest.get_report env).2 b) := by
  unfold DcuGuest.get_report
  by_cases ho : env.openOk = true
  · rw [if_pos ho]
    exact runNodes_counts env (List.range env.numNode) (List.nodup_range env.numNode) b
  · rw [if_neg ho]
    refine ⟨?_, ?_, fun r hr => ?_⟩
    · simp [allocCount, List.filter]
    · simp [allocCount, freeCount, List.filter]
    · exact absurd hr (by simp)

/-- Witness for C7: a fully successful one-node run frees what it
allocates. -/
theorem buffer_discipline_witness :
    freeCount (DcuGuest.get_report envAllOk).2 0 =
      allocCount (DcuGuest.get_report envAllOk).2 0 :=
  (buffer_discipline envAllOk 0).2.2 AttestationReport.default (by decide)

/-- Counterexample for C7 as stated: when the response-buffer
allocation fails, the just-allocated request buffer of node 0 is never
freed on that exit path. -/
theorem request_buffer_leak :
    allocCount (DcuGuest.get_report envRspAllocFail).2 (reqBuf 0) = 1 ∧
    freeCount (DcuGuest.get_report envRspAllocFail).2 (reqBuf 0) = 0 :=
  ⟨rfl, rfl⟩

/-- C8 (amended): every exchange call passes a response length of
exactly `PAGE_SIZE`, but the request length it passes is also
`PAGE_SIZE`, not the 112-byte size of the request record (see the
counterexample). -/
theorem ioctl_sizes (env : DcuEnv) (a : MkfdIoctlSecurityAttestationArgs)
    (h : Ev.ioctl a ∈ (DcuGuest.get_report env).2) :
    a.request_size = PAGE_SIZE ∧ a.response_size = PAGE_SIZE := by
  unfold DcuGuest.get_report at h
  by_cases ho : env.openOk = true
  · rw [if_pos ho] at h
    obtain ⟨gid, n, rfl⟩ := runNodes_ioctl_mem env (List.range env.numNode) a h
    exact ⟨rfl, rfl⟩
  · rw [if_neg ho] at h
    exact absurd h (by simp)

/-- Witness for C8: the exchange of the successful one-node run. -/
theorem ioctl_sizes_witness :
    (nodeArgs 7 0).request_size = PAGE_SIZE ∧
    (nodeArgs 7 0).response_size = PAGE_SIZE :=
  ioctl_sizes envAllOk (nodeArgs 7 0) (by decide)

/-- Counterexample for C8 as stated: the exchange call of the
successful one-node run passes `request_size = PAGE_SIZE = 4096`, which
differs from the 112-byte request-record size the buffer was allocated
with. -/
theorem ioctl_request_size_mismatch :
    Ev.ioctl (nodeArgs 7 0) ∈ (DcuGuest.get_report envAllOk).2 ∧
    Ev.alloc (reqBuf 0) dcuReportReqSize ∈ (DcuGuest.get_report envAllOk).2 ∧
    (nodeArgs 7 0).request_size = PAGE_SIZE ∧
    (nodeArgs 7 0).request_size ≠ dcuReportReqSize := by
  refine ⟨?_, ?_, rfl, ?_⟩ <;> decide

end CsvRs
